import Mathlib

/-!
Shallow embedding of the classification, scoring and recommendation logic of
the precision-medicine repository (src/modules/breast_cancer.py,
src/modules/lung_cancer.py, src/utils/therapy_recommender.py).

Modelling conventions:
* A patient row (dict / pandas Series) becomes the structure `PatientRow`.
  A Python key that may be absent (`'high_expression' in row`,
  `'structural_variants' in row`) becomes an `Option` field: `none` models the
  absent key, `some l` the present key holding the list `l`.
* Python list membership `'G' in row['gene_amplifications']` is exact string
  membership (`List.contains`); Python substring tests `'TP53' in mutation`
  become `containsSub`, the infix (contiguous-sublist) test on the character
  lists of the strings.
* The scorers accumulate `base_level` starting at 2 and adding 1, 0.5, -0.5,
  0.3 and 0.4.  All adjustments are integer multiples of 0.1, so the score is
  modelled exactly as an integer count of tenths (base 20, adding 10, 5, -5,
  3, 4).  Sums whose fractional part is .5 — the only inputs where the rounding
  tie-break matters — involve none of the 0.3/0.4 adjustments, hence are exact
  dyadic floating-point values in Python, and away from ties the accumulated
  float differs from the exact value by ~1e-16, far from any .5 boundary; so
  rounding the exact tenths value reproduces Python's `round` on the float.
  `roundTenths` is Python 3 `round` (round-half-to-even) on a non-negative
  number of tenths.
* Python `str.lower()` becomes `lowerStr` (ASCII lowering, which agrees with
  Python on the ASCII gene/mutation strings handled here).
* `mutation.split(':')[0]` becomes `geneOf` (the prefix before the first
  colon; the whole string when there is no colon).
* Python dicts (the knowledge base) become association lists with
  `List.lookup`; the loaded JSON objects have distinct keys, and lookup takes
  the first match.  The optional `details` / `indication` / `therapy_options`
  keys read with `.get(...)` / `in` checks become `Option` fields.
* `list(set(special_recommendations))` returns the distinct elements in an
  unspecified (hash-dependent) order; it is modelled by `List.dedup`, a
  canonical duplicate-free representative (the spec constrains only the
  absence of duplicates, not the order).
-/

/-- Python substring test `pat in hay` on strings. -/
def containsSub (hay pat : String) : Bool :=
  decide (pat.toList <:+: hay.toList)

/-- Python `str.lower()` (ASCII case folding, which matches Python on the
ASCII inputs of this code base). -/
def lowerStr (s : String) : String :=
  String.mk (s.toList.map Char.toLower)

/-- Python `mutation.split(':')[0]`: the prefix of the string before the
first `':'` (the whole string when no colon occurs). -/
def geneOf (m : String) : String :=
  String.mk (m.toList.takeWhile (fun c => c ≠ ':'))

/-- Python 3 `round` (round half to even) applied to a non-negative score
given as an integer number of tenths. -/
def roundTenths (t : Int) : Int :=
  let q := t / 10
  let r := t % 10
  if r < 5 then q
  else if 5 < r then q + 1
  else if q % 2 = 0 then q else q + 1

/-- `max(1, min(4, x))`, the final clamp of both therapy-level scorers. -/
def clampLevel (x : Int) : Int :=
  max 1 (min 4 x)

/-- A patient record (Python dict / pandas Series).  `Option` fields model
keys that may be absent from the row. -/
structure PatientRow where
  gene_amplifications : List String
  gene_deletions : List String
  gene_mutations : List String
  high_expression : Option (List String)
  structural_variants : Option (List String)
  study_of_origin : Option String
  breast_cancer_subtype : String
  lung_cancer_subtype : String
  optimal_therapy_level : Int
  deriving DecidableEq, Repr

/-- A row with every list empty and every optional key absent; concrete
records below override the relevant fields. -/
def emptyRow : PatientRow :=
  { gene_amplifications := []
    gene_deletions := []
    gene_mutations := []
    high_expression := none
    structural_variants := none
    study_of_origin := none
    breast_cancer_subtype := ""
    lung_cancer_subtype := ""
    optimal_therapy_level := 0 }

/-- src/modules/breast_cancer.py, `classify_breast_cancer_subtype`. -/
def classify_breast_cancer_subtype (row : PatientRow) : String :=
  let her2_positive :=
    row.gene_amplifications.contains "ERBB2" ||
      (match row.high_expression with
       | some he => he.contains "ERBB2"
       | none => false)
  let er_positive :=
    (match row.high_expression with
     | some he => he.contains "ESR1"
     | none => false) ||
      row.gene_amplifications.contains "ESR1"
  if er_positive && !her2_positive then "Luminal A/B"
  else if er_positive && her2_positive then "Luminal HER2+"
  else if !er_positive && her2_positive then "HER2 Enriched"
  else "Triple Negative"

/-- src/modules/breast_cancer.py, `determine_breast_therapy_level`.
The accumulating `base_level` is held in tenths (Python's 2 ↦ 20, 0.5 ↦ 5,
0.3 ↦ 3, 0.4 ↦ 4); see the header comment for why this is exact. -/
def determine_breast_therapy_level (row : PatientRow) : Int :=
  let base0 : Int := 20
  let subtype := row.breast_cancer_subtype
  let base1 :=
    if subtype = "Triple Negative" then base0 + 10
    else if subtype = "HER2 Enriched" then base0 + 5
    else if subtype = "Luminal A/B" then base0 - 5
    else base0
  let tp53_mutated := row.gene_mutations.any (fun m => containsSub m "TP53")
  let base2 := if tp53_mutated then base1 + 5 else base1
  let brca_mutated :=
    row.gene_mutations.any (fun m => containsSub m "BRCA1" || containsSub m "BRCA2")
  let base3 := if brca_mutated then base2 + 5 else base2
  let base4 :=
    if row.gene_amplifications.contains "MYC" || row.gene_amplifications.contains "CCND1"
    then base3 + 3 else base3
  let base5 :=
    if row.gene_deletions.contains "PTEN" || row.gene_deletions.contains "RB1"
    then base4 + 4 else base4
  clampLevel (roundTenths base5)

/-- src/modules/lung_cancer.py, `classify_lung_cancer_subtype`.
Note the Python operator precedence on lines 32–34:
`any(... mutations) or any(... svs) if 'structural_variants' in row else False`
parses as `(any(... mutations) or any(... svs)) if ... else False`, so when
the `structural_variants` key is absent the whole EGFR/ALK/ROS1 check is
`False`, the mutation half included; only the KRAS check (line 35, no
conditional) still reads the mutations. -/
def classify_lung_cancer_subtype (row : PatientRow) : String :=
  match row.study_of_origin with
  | none => "Unknown"
  | some cancer_type =>
    let base_type :=
      if containsSub cancer_type "Lung Adenocarcinoma" then "LUAD"
      else if containsSub cancer_type "Lung Squamous Cell Carcinoma" then "LUSC"
      else "Unknown"
    let has_egfr_alteration :=
      match row.structural_variants with
      | some svs =>
          row.gene_mutations.any (fun m => containsSub m "EGFR") ||
            svs.any (fun sv => containsSub sv "EGFR")
      | none => false
    let has_alk_alteration :=
      match row.structural_variants with
      | some svs =>
          row.gene_mutations.any (fun m => containsSub m "ALK") ||
            svs.any (fun sv => containsSub sv "ALK")
      | none => false
    let has_ros1_alteration :=
      match row.structural_variants with
      | some svs =>
          row.gene_mutations.any (fun m => containsSub m "ROS1") ||
            svs.any (fun sv => containsSub sv "ROS1")
      | none => false
    let has_kras_mutation := row.gene_mutations.any (fun m => containsSub m "KRAS")
    if base_type = "LUAD" then
      if has_egfr_alteration then "LUAD EGFR-mutated"
      else if has_alk_alteration then "LUAD ALK-rearranged"
      else if has_ros1_alteration then "LUAD ROS1-rearranged"
      else if has_kras_mutation then "LUAD KRAS-mutated"
      else "LUAD Other"
    else if base_type = "LUSC" then "LUSC"
    else "Unknown"

/-- src/modules/lung_cancer.py, `determine_lung_therapy_level`
(score in tenths, as for breast). -/
def determine_lung_therapy_level (row : PatientRow) : Int :=
  let base0 : Int := 20
  let subtype := row.lung_cancer_subtype
  let base1 :=
    if subtype = "LUAD EGFR-mutated" then
      let has_resistance_mutation :=
        row.gene_mutations.any (fun m => containsSub m "T790M") ||
          row.gene_mutations.any (fun m => containsSub m "C797S")
      if has_resistance_mutation then base0 + 10 else base0
    else if subtype = "LUAD ALK-rearranged" || subtype = "LUAD ROS1-rearranged" then
      base0 + 5
    else if subtype = "LUAD KRAS-mutated" then
      let has_g12c := row.gene_mutations.any (fun m => containsSub m "G12C")
      if ¬has_g12c then base0 + 5 else base0
    else base0
  let tp53_mutated := row.gene_mutations.any (fun m => containsSub m "TP53")
  let base2 := if tp53_mutated then base1 + 5 else base1
  clampLevel (roundTenths base2)

/-- One entry of a `recommendations` list in the knowledge base:
`{"therapy": ..., "details": ...}` (`details` optional, read with
`rec.get("details", "")`). -/
structure RecEntry where
  therapy : String
  details : Option String
  deriving DecidableEq, Repr

/-- One value of the `therapy_levels` mapping of a subtype. -/
structure TherapyLevelEntry where
  recommendations : List RecEntry
  deriving DecidableEq, Repr

/-- One value of the `subtypes` mapping. -/
structure SubtypeEntry where
  therapy_levels : List (String × TherapyLevelEntry)
  deriving DecidableEq, Repr

/-- One entry of a biomarker's `therapy_options` list:
`{"name": ..., "indication": ...}` (`indication` optional, read with
`therapy.get("indication", "")`). -/
structure TherapyOption where
  name : String
  indication : Option String
  deriving DecidableEq, Repr

/-- One value of the `special_biomarkers` mapping; the `therapy_options` key
may be absent (`if "therapy_options" in biomarker_data`). -/
structure BiomarkerEntry where
  therapy_options : Option (List TherapyOption)
  deriving DecidableEq, Repr

/-- The knowledge-base dictionary, restricted to the keys the resolvers
read (`subtypes`, `special_biomarkers`); dicts become association lists. -/
structure KnowledgeBase where
  subtypes : List (String × SubtypeEntry)
  special_biomarkers : List (String × BiomarkerEntry)
  deriving DecidableEq, Repr

/-- The `(name, indication)` pairs a biomarker lookup contributes to the
special list: all of the entry's `therapy_options` when the key is present
and the entry has them, nothing otherwise. -/
def biomarkerOptions (kb : KnowledgeBase) (key : String) : List (String × String) :=
  match kb.special_biomarkers.lookup key with
  | some bd => (bd.therapy_options.getD []).map (fun t => (t.name, t.indication.getD ""))
  | none => []

/-- src/modules/breast_cancer.py, `get_breast_cancer_recommendations`
(textually identical copy in src/utils/therapy_recommender.py).  Returns
`(recommendations, special_recommendations)`. -/
def get_breast_cancer_recommendations (patient_data : PatientRow)
    (knowledge_base : KnowledgeBase) :
    List (String × String) × List (String × String) :=
  let subtype := patient_data.breast_cancer_subtype
  let level_str := toString patient_data.optimal_therapy_level
  match knowledge_base.subtypes.lookup subtype with
  | none => ([], [])
  | some st =>
    match st.therapy_levels.lookup level_str with
    | none => ([], [])
    | some therapy_data =>
      let recommendations :=
        therapy_data.recommendations.map (fun r => (r.therapy, r.details.getD ""))
      let from_mutations :=
        patient_data.gene_mutations.flatMap
          (fun m => biomarkerOptions knowledge_base (geneOf m ++ "_mutation"))
      let from_amplifications :=
        patient_data.gene_amplifications.flatMap
          (fun g => biomarkerOptions knowledge_base (g ++ "_amplification"))
      let from_deletions :=
        patient_data.gene_deletions.flatMap
          (fun g => biomarkerOptions knowledge_base (g ++ "_loss"))
      let special_recommendations :=
        from_mutations ++ from_amplifications ++ from_deletions
      (recommendations, special_recommendations.dedup)

/-- src/modules/lung_cancer.py, `get_lung_cancer_recommendations`
(textually identical copy in src/utils/therapy_recommender.py).  The
`knowledge_base` parameter is accepted, as in the source, but never read. -/
def get_lung_cancer_recommendations (patient_data : PatientRow)
    (knowledge_base : KnowledgeBase) :
    List (String × String) × List (String × String) :=
  let _ := knowledge_base
  let subtype := patient_data.lung_cancer_subtype
  let therapy_level := patient_data.optimal_therapy_level
  let results :=
    if containsSub subtype "EGFR-mutated" then
      let has_exon20 :=
        patient_data.gene_mutations.any (fun m => containsSub (lowerStr m) "exon20")
      let has_t790m :=
        patient_data.gene_mutations.any (fun m => containsSub m "T790M")
      ([("EGFR TKI Therapy", "Osimertinib preferred for first-line")] ++
         (if therapy_level ≥ 3 then
            [("EGFR TKI + Anti-angiogenic", "Consider Osimertinib + Bevacizumab")]
          else []) ++
         (if therapy_level ≥ 4 then
            [("Combination Therapy", "EGFR TKI + chemotherapy (platinum-pemetrexed)"),
             ("Clinical Trial", "Novel approaches for EGFR resistance")]
          else []),
       (if has_exon20 then
          [("Amivantamab", "FDA-approved for EGFR exon20 insertion mutations")]
        else []) ++
         (if has_t790m then
            [("Osimertinib", "Effective against T790M resistance mutation")]
          else []))
    else if containsSub subtype "ALK-rearranged" then
      ([("ALK TKI Therapy", "Alectinib preferred for first-line")] ++
         (if therapy_level ≥ 4 then
            [("Combination Therapy", "Consider ALK TKI + chemotherapy"),
             ("Clinical Trial", "Novel approaches for ALK resistance")]
          else []),
       if therapy_level ≥ 3 then
         [("Lorlatinib", "For resistant disease or brain metastases")]
       else [])
    else if containsSub subtype "ROS1-rearranged" then
      ([("ROS1 TKI Therapy", "Entrectinib (preferred if CNS disease) or Crizotinib")] ++
         (if therapy_level ≥ 4 then
            [("Clinical Trial", "Novel approaches for ROS1+ disease")]
          else []),
       if therapy_level ≥ 3 then
         [("Lorlatinib or Repotrectinib", "For resistant disease")]
       else [])
    else if containsSub subtype "KRAS-mutated" then
      let has_g12c :=
        patient_data.gene_mutations.any (fun m => containsSub m "G12C")
      ((if therapy_level = 1 then
          [("Immunotherapy", "Pembrolizumab for PD-L1 >50%")]
        else if therapy_level = 2 then
          [("Chemo-Immunotherapy", "Platinum doublet + Pembrolizumab")]
        else if therapy_level ≥ 3 then
          [("Intensive Chemotherapy", "Platinum doublet + Pembrolizumab + Bevacizumab")]
        else []) ++
         (if therapy_level ≥ 4 then
            [("Clinical Trial", "Novel KRAS inhibitors or combinations")]
          else []),
       if has_g12c then
         [("Sotorasib or Adagrasib", "FDA-approved for KRAS G12C mutation")]
       else [])
    else
      ((if therapy_level = 1 then
          [("Immunotherapy", "Pembrolizumab for PD-L1 >50%")]
        else if therapy_level = 2 then
          [("Chemo-Immunotherapy", "Platinum doublet + Pembrolizumab")]
        else if therapy_level ≥ 3 then
          [("Intensive Chemotherapy", "Platinum doublet + Pembrolizumab + additional agent")]
        else []) ++
         (if therapy_level ≥ 4 then
            [("Clinical Trial", "Novel approaches or combinations"),
             ("Docetaxel + Ramucirumab", "For refractory disease")]
          else []),
       [])
  (results.1, results.2.dedup)

/-! ### Spec-side definitions (refinement targets, written from the spec's wording) -/

/-- Spec §4.1 (breast), stated in the spec's words: `her2_positive` iff
`"ERBB2"` is in amplifications or in high_expression (absent treated as
empty), `er_positive` iff `"ESR1"` is in high_expression or in
amplifications, and the output follows the four-row priority table. -/
def classifyBreastSpec (row : PatientRow) : String :=
  let high := row.high_expression.getD []
  let amps := row.gene_amplifications
  if ("ESR1" ∈ high ∨ "ESR1" ∈ amps) ∧ ¬("ERBB2" ∈ amps ∨ "ERBB2" ∈ high) then
    "Luminal A/B"
  else if ("ESR1" ∈ high ∨ "ESR1" ∈ amps) ∧ ("ERBB2" ∈ amps ∨ "ERBB2" ∈ high) then
    "Luminal HER2+"
  else if ¬("ESR1" ∈ high ∨ "ESR1" ∈ amps) ∧ ("ERBB2" ∈ amps ∨ "ERBB2" ∈ high) then
    "HER2 Enriched"
  else "Triple Negative"

/-- Spec §4.2 (breast), the additive formula in tenths: base 2.0 plus the
subtype, TP53, BRCA1/2, MYC/CCND1-amplification and PTEN/RB1-deletion
adjustments, summed in any order. -/
def breastScoreSpecTenths (row : PatientRow) : Int :=
  20 +
    (if row.breast_cancer_subtype = "Triple Negative" then 10
     else if row.breast_cancer_subtype = "HER2 Enriched" then 5
     else if row.breast_cancer_subtype = "Luminal A/B" then -5
     else 0) +
    (if row.gene_mutations.any (fun m => containsSub m "TP53") then 5 else 0) +
    (if row.gene_mutations.any
        (fun m => containsSub m "BRCA1" || containsSub m "BRCA2") then 5 else 0) +
    (if row.gene_amplifications.contains "MYC" ||
        row.gene_amplifications.contains "CCND1" then 3 else 0) +
    (if row.gene_deletions.contains "PTEN" ||
        row.gene_deletions.contains "RB1" then 4 else 0)

/-- Spec §4.2 (lung), the additive formula in tenths: base 2.0, the
subtype-specific adjustment, then the subtype-independent TP53 adjustment. -/
def lungScoreSpecTenths (row : PatientRow) : Int :=
  20 +
    (if row.lung_cancer_subtype = "LUAD EGFR-mutated" then
       (if row.gene_mutations.any (fun m => containsSub m "T790M") ||
           row.gene_mutations.any (fun m => containsSub m "C797S") then 10 else 0)
     else if row.lung_cancer_subtype = "LUAD ALK-rearranged" ||
             row.lung_cancer_subtype = "LUAD ROS1-rearranged" then 5
     else if row.lung_cancer_subtype = "LUAD KRAS-mutated" then
       (if row.gene_mutations.any (fun m => containsSub m "G12C") then 0 else 5)
     else 0) +
    (if row.gene_mutations.any (fun m => containsSub m "TP53") then 5 else 0)

/-- The amended lung classifier behavior (C3): when `structural_variants`
is absent, the EGFR/ALK/ROS1 driver checks are false as a whole — the
mutation half included — and only the KRAS check still reads the
mutations; when present, drivers are matched across mutations and
structural variants in the EGFR, ALK, ROS1, KRAS priority order. -/
def classifyLungAmendedSpec (row : PatientRow) : String :=
  match row.study_of_origin with
  | none => "Unknown"
  | some ct =>
    if containsSub ct "Lung Adenocarcinoma" then
      match row.structural_variants with
      | none =>
        if row.gene_mutations.any (fun m => containsSub m "KRAS") then
          "LUAD KRAS-mutated"
        else "LUAD Other"
      | some svs =>
        if row.gene_mutations.any (fun m => containsSub m "EGFR") ||
           svs.any (fun sv => containsSub sv "EGFR") then "LUAD EGFR-mutated"
        else if row.gene_mutations.any (fun m => containsSub m "ALK") ||
                svs.any (fun sv => containsSub sv "ALK") then "LUAD ALK-rearranged"
        else if row.gene_mutations.any (fun m => containsSub m "ROS1") ||
                svs.any (fun sv => containsSub sv "ROS1") then "LUAD ROS1-rearranged"
        else if row.gene_mutations.any (fun m => containsSub m "KRAS") then
          "LUAD KRAS-mutated"
        else "LUAD Other"
    else if containsSub ct "Lung Squamous Cell Carcinoma" then "LUSC"
    else "Unknown"

/-! ### Helper lemmas -/

/-- The final clamp keeps every score in `[1, 4]`. -/
theorem clampLevel_bounds (x : Int) : 1 ≤ clampLevel x ∧ clampLevel x ≤ 4 := by
  unfold clampLevel
  constructor
  · exact le_max_left 1 _
  · exact max_le (by norm_num) (min_le_left 4 x)

/-! ### Claims -/

/-- C1: for every record, both therapy-level scorers return an integer in
{1,2,3,4}, however many adjustments stack. -/
theorem therapy_level_always_in_range (row : PatientRow) :
    (1 ≤ determine_breast_therapy_level row ∧ determine_breast_therapy_level row ≤ 4) ∧
    (1 ≤ determine_lung_therapy_level row ∧ determine_lung_therapy_level row ≤ 4) := by
  refine ⟨?_, ?_⟩
  · exact clampLevel_bounds _
  · exact clampLevel_bounds _

/-- C2: the breast subtype classifier agrees exactly with the spec's
receptor-status priority table. -/
theorem classify_breast_matches_spec (row : PatientRow) :
    classify_breast_cancer_subtype row = classifyBreastSpec row := by
  unfold classify_breast_cancer_subtype classifyBreastSpec
  cases h : row.high_expression <;>
    simp [List.elem_iff, Decidable.em]

/-- A LUAD record with an EGFR mutation but no `structural_variants` key:
the input on which the code and claim C3 part ways. -/
def luadEgfrNoSvRow : PatientRow :=
  { emptyRow with
    study_of_origin := some "Lung Adenocarcinoma"
    gene_mutations := ["EGFR:L858R"] }

/-- C3 counterexample: for a record with `study_of_origin` containing
"Lung Adenocarcinoma", an EGFR mutation, and the `structural_variants`
field absent, the classifier returns "LUAD Other", not the
"LUAD EGFR-mutated" the claim requires (the Python conditional expression
`any(muts) or any(svs) if 'structural_variants' in row else False`
evaluates to `False` as a whole when the key is absent). -/
theorem classify_lung_missing_sv_counterexample :
    classify_lung_cancer_subtype luadEgfrNoSvRow = "LUAD Other" ∧
      classify_lung_cancer_subtype luadEgfrNoSvRow ≠ "LUAD EGFR-mutated" := by
  constructor
  · rfl
  · decide

/-- C3 amended: the lung classifier behaves as claimed except that an
absent `structural_variants` field disables the EGFR/ALK/ROS1 checks
entirely (mutations included); only the KRAS mutation check survives.
`classifyLungAmendedSpec` states this corrected behavior. -/
theorem classify_lung_matches_amended_spec (row : PatientRow) :
    classify_lung_cancer_subtype row = classifyLungAmendedSpec row := by
  unfold classify_lung_cancer_subtype classifyLungAmendedSpec
  cases hso : row.study_of_origin with
  | none => rfl
  | some ct =>
    cases hsv : row.structural_variants <;>
      cases hA : containsSub ct "Lung Adenocarcinoma" <;>
      cases hS : containsSub ct "Lung Squamous Cell Carcinoma" <;>
      simp [hA, hS]

/-- C4: each therapy-level scorer equals the spec's additive formula —
start at 2.0 (20 tenths), add every applicable adjustment, round half to
even, clamp to [1, 4]. -/
theorem therapy_level_matches_additive_spec (row : PatientRow) :
    determine_breast_therapy_level row =
        clampLevel (roundTenths (breastScoreSpecTenths row)) ∧
      determine_lung_therapy_level row =
        clampLevel (roundTenths (lungScoreSpecTenths row)) := by
  constructor
  · simp only [determine_breast_therapy_level, breastScoreSpecTenths]
    split_ifs <;> rfl
  · simp only [determine_lung_therapy_level, lungScoreSpecTenths]
    split_ifs <;> rfl

/-- C5: the lung recommendation resolver ignores its knowledge-base
argument: any two knowledge bases give identical output on the same
record. -/
theorem lung_recommendations_ignore_knowledge_base (row : PatientRow)
    (kb1 kb2 : KnowledgeBase) :
    get_lung_cancer_recommendations row kb1 = get_lung_cancer_recommendations row kb2 := rfl

/-! ### Sample inputs for counterexamples and witnesses -/

/-- An empty knowledge base. -/
def emptyKB : KnowledgeBase := ⟨[], []⟩

/-- The level-"2" entry of the "Triple Negative" subtype of the default
breast knowledge base. -/
def tnLevel2Entry : TherapyLevelEntry :=
  ⟨[⟨"Anthracycline and taxane-based chemotherapy", some "Consider dose-dense scheduling"⟩,
    ⟨"Consider platinum agent", some "Especially for BRCA-associated tumors"⟩]⟩

/-- A slice of the default breast knowledge base: the "Triple Negative"
subtype with its level-"2" entry, and the BRCA1/BRCA2 biomarkers (whose
`therapy_options` coincide). -/
def kbBreastSample : KnowledgeBase :=
  ⟨[("Triple Negative", ⟨[("2", tnLevel2Entry)]⟩)],
   [("BRCA1_mutation",
      ⟨some [⟨"PARP inhibitor", some "Olaparib or Talazoparib for metastatic disease"⟩,
             ⟨"Platinum chemotherapy", some "Increased sensitivity due to DNA repair deficiency"⟩]⟩),
    ("BRCA2_mutation",
      ⟨some [⟨"PARP inhibitor", some "Olaparib or Talazoparib for metastatic disease"⟩,
             ⟨"Platinum chemotherapy", some "Increased sensitivity due to DNA repair deficiency"⟩]⟩)]⟩

/-- A breast record whose subtype is not a key of `kbBreastSample`. -/
def rowUnknownSubtype : PatientRow :=
  { emptyRow with breast_cancer_subtype := "Unknown", optimal_therapy_level := 2 }

/-- A Triple Negative, level-2 breast record with one BRCA1 mutation. -/
def rowTripleNeg2 : PatientRow :=
  { emptyRow with
    breast_cancer_subtype := "Triple Negative"
    optimal_therapy_level := 2
    gene_mutations := ["BRCA1:frameshift"] }

/-- A breast record with an unknown subtype AND a BRCA1 mutation whose
biomarker key is present in `kbBreastSample`. -/
def rowMissingComboBrca : PatientRow :=
  { emptyRow with
    breast_cancer_subtype := "Unknown"
    optimal_therapy_level := 2
    gene_mutations := ["BRCA1:frameshift"] }

/-- A Triple Negative, level-2 breast record with BRCA1 and BRCA2
mutations (two genes contributing the same therapy options). -/
def rowTn2TwoBrca : PatientRow :=
  { emptyRow with
    breast_cancer_subtype := "Triple Negative"
    optimal_therapy_level := 2
    gene_mutations := ["BRCA1:frameshift", "BRCA2:missense"] }

/-- An EGFR-mutated lung record whose only mutation carries C797S. -/
def egfrC797sRow : PatientRow :=
  { emptyRow with
    lung_cancer_subtype := "LUAD EGFR-mutated"
    optimal_therapy_level := 2
    gene_mutations := ["EGFR:C797S substitution"] }

/-- An EGFR-mutated lung record with exon20 and T790M mutations. -/
def egfrExon20T790mRow : PatientRow :=
  { emptyRow with
    lung_cancer_subtype := "LUAD EGFR-mutated"
    optimal_therapy_level := 2
    gene_mutations := ["EGFR:exon20 insertion", "EGFR:T790M"] }

/-- A KRAS-mutated lung record with a G12C mutation. -/
def krasG12cRow : PatientRow :=
  { emptyRow with
    lung_cancer_subtype := "LUAD KRAS-mutated"
    optimal_therapy_level := 2
    gene_mutations := ["KRAS:G12C"] }

/-- A breast record that is HER2 Enriched with no other adjustment
(accumulated score exactly 2.5). -/
def her2OnlyRow : PatientRow :=
  { emptyRow with breast_cancer_subtype := "HER2 Enriched" }

/-- A Triple Negative breast record with only a TP53 mutation
(accumulated score exactly 3.5). -/
def tnTp53Row : PatientRow :=
  { emptyRow with
    breast_cancer_subtype := "Triple Negative"
    gene_mutations := ["TP53:R175H"] }

/-- C6: the breast resolver fails closed — a subtype absent from the
knowledge base, or a level absent from that subtype's table, yields
`([], [])`; otherwise the standard list is exactly the looked-up entry's
`(therapy, details)` pairs in order (details defaulting to ""). -/
theorem breast_resolver_fails_closed (p : PatientRow) (kb : KnowledgeBase) :
    (kb.subtypes.lookup p.breast_cancer_subtype = none →
      get_breast_cancer_recommendations p kb = ([], [])) ∧
    (∀ st : SubtypeEntry, kb.subtypes.lookup p.breast_cancer_subtype = some st →
      (st.therapy_levels.lookup (toString p.optimal_therapy_level) = none →
        get_breast_cancer_recommendations p kb = ([], [])) ∧
      (∀ td : TherapyLevelEntry,
        st.therapy_levels.lookup (toString p.optimal_therapy_level) = some td →
        (get_breast_cancer_recommendations p kb).1 =
          td.recommendations.map (fun r => (r.therapy, r.details.getD "")))) := by
  refine ⟨fun h => ?_, fun st hst => ⟨fun h => ?_, fun td htd => ?_⟩⟩
  · simp [get_breast_cancer_recommendations, h]
  · simp [get_breast_cancer_recommendations, hst, h]
  · simp [get_breast_cancer_recommendations, hst, htd]

/-- C6 witness: on a slice of the default knowledge base, an unknown
subtype gives `([], [])`, and Triple Negative at level 2 gives exactly the
configured standard list. -/
theorem breast_resolver_fails_closed_witness :
    get_breast_cancer_recommendations rowUnknownSubtype kbBreastSample = ([], []) ∧
      (get_breast_cancer_recommendations rowTripleNeg2 kbBreastSample).1 =
        tnLevel2Entry.recommendations.map (fun r => (r.therapy, r.details.getD "")) :=
  ⟨(breast_resolver_fails_closed rowUnknownSubtype kbBreastSample).1 rfl,
   ((breast_resolver_fails_closed rowTripleNeg2 kbBreastSample).2 ⟨[("2", tnLevel2Entry)]⟩
        rfl).2 tnLevel2Entry rfl⟩

/-- C7 counterexample: a record whose subtype is absent from the
knowledge base but whose BRCA1 mutation's biomarker key is present still
gets an EMPTY special list — the resolver returns `([], [])` before the
biomarker loops run, so the special path is NOT unaffected. -/
theorem breast_special_lost_on_missing_combo_counterexample :
    (kbBreastSample.special_biomarkers.lookup
        (geneOf "BRCA1:frameshift" ++ "_mutation")).isSome = true ∧
      kbBreastSample.subtypes.lookup rowMissingComboBrca.breast_cancer_subtype = none ∧
      get_breast_cancer_recommendations rowMissingComboBrca kbBreastSample = ([], []) ∧
      ("PARP inhibitor", "Olaparib or Talazoparib for metastatic disease") ∉
        (get_breast_cancer_recommendations rowMissingComboBrca kbBreastSample).2 := by
  have h3 : get_breast_cancer_recommendations rowMissingComboBrca kbBreastSample = ([], []) := rfl
  refine ⟨rfl, rfl, h3, ?_⟩
  rw [h3]
  simp

/-- C7 amended: when the subtype or level key is absent, the whole result
degrades to `([], [])` — the special-biomarker path is skipped too, so
matching biomarker entries contribute nothing in that case. -/
theorem breast_missing_combo_empties_special (p : PatientRow) (kb : KnowledgeBase)
    (h : kb.subtypes.lookup p.breast_cancer_subtype = none ∨
      ∃ st, kb.subtypes.lookup p.breast_cancer_subtype = some st ∧
        st.therapy_levels.lookup (toString p.optimal_therapy_level) = none) :
    (get_breast_cancer_recommendations p kb).2 = [] := by
  rcases h with h | ⟨st, hst, hlvl⟩
  · simp [get_breast_cancer_recommendations, h]
  · simp [get_breast_cancer_recommendations, hst, hlvl]

/-- C7 amended witness: the record of the counterexample indeed gets an
empty special list. -/
theorem breast_missing_combo_empties_special_witness :
    (get_breast_cancer_recommendations rowMissingComboBrca kbBreastSample).2 = [] :=
  breast_missing_combo_empties_special rowMissingComboBrca kbBreastSample (Or.inl rfl)

/-- C8: the special list returned by either resolver never contains two
identical (name, indication) pairs; in particular BRCA1 and BRCA2
mutations contributing the same therapy options collapse to single
entries. -/
theorem special_recommendations_no_duplicates (p : PatientRow) (kb : KnowledgeBase) :
    (get_breast_cancer_recommendations p kb).2.Nodup ∧
      (get_lung_cancer_recommendations p kb).2.Nodup ∧
      (get_breast_cancer_recommendations rowTn2TwoBrca kbBreastSample).2 =
        [("PARP inhibitor", "Olaparib or Talazoparib for metastatic disease"),
         ("Platinum chemotherapy", "Increased sensitivity due to DNA repair deficiency")] := by
  refine ⟨?_, ?_, rfl⟩
  · unfold get_breast_cancer_recommendations
    cases hst : kb.subtypes.lookup p.breast_cancer_subtype with
    | none => simp [hst]
    | some st =>
      cases htd : st.therapy_levels.lookup (toString p.optimal_therapy_level) with
      | none => simp [hst, htd]
      | some td => simp [hst, htd, List.nodup_dedup]
  · simp only [get_lung_cancer_recommendations]
    exact List.nodup_dedup _

/-- C9 counterexample: an EGFR-mutated record whose only mutation carries
C797S gets an empty special list — no special recommendation is triggered
by C797S (the code only checks exon20 and T790M in that branch). -/
theorem lung_c797s_triggers_nothing_counterexample :
    egfrC797sRow.gene_mutations.any (fun m => containsSub m "C797S") = true ∧
      (get_lung_cancer_recommendations egfrC797sRow emptyKB).2 = [] := ⟨rfl, rfl⟩

/-- C9 amended: in the EGFR-mutated branch an exon20 mutation
(case-insensitive) triggers the Amivantamab special recommendation and a
T790M mutation triggers the Osimertinib one; in the KRAS-mutated branch
a G12C mutation triggers the Sotorasib/Adagrasib one; C797S triggers no
special recommendation (it only feeds the therapy-level resistance
check). -/
theorem lung_special_triggers (p : PatientRow) (kb : KnowledgeBase) :
    (containsSub p.lung_cancer_subtype "EGFR-mutated" = true →
      (p.gene_mutations.any (fun m => containsSub (lowerStr m) "exon20") = true →
        ("Amivantamab", "FDA-approved for EGFR exon20 insertion mutations") ∈
          (get_lung_cancer_recommendations p kb).2) ∧
      (p.gene_mutations.any (fun m => containsSub m "T790M") = true →
        ("Osimertinib", "Effective against T790M resistance mutation") ∈
          (get_lung_cancer_recommendations p kb).2)) ∧
    (containsSub p.lung_cancer_subtype "EGFR-mutated" = false →
      containsSub p.lung_cancer_subtype "ALK-rearranged" = false →
      containsSub p.lung_cancer_subtype "ROS1-rearranged" = false →
      containsSub p.lung_cancer_subtype "KRAS-mutated" = true →
      p.gene_mutations.any (fun m => containsSub m "G12C") = true →
        ("Sotorasib or Adagrasib", "FDA-approved for KRAS G12C mutation") ∈
          (get_lung_cancer_recommendations p kb).2) := by
  constructor
  · intro hEG
    constructor
    · intro hx
      simp [get_lung_cancer_recommendations, hEG, hx, List.mem_dedup]
    · intro ht
      simp [get_lung_cancer_recommendations, hEG, ht, List.mem_dedup]
  · intro h1 h2 h3 h4 hg
    simp [get_lung_cancer_recommendations, h1, h2, h3, h4, hg, List.mem_dedup]

/-- C9 amended witness: concrete records exercise all three triggers. -/
theorem lung_special_triggers_witness :
    ("Amivantamab", "FDA-approved for EGFR exon20 insertion mutations") ∈
        (get_lung_cancer_recommendations egfrExon20T790mRow emptyKB).2 ∧
      ("Osimertinib", "Effective against T790M resistance mutation") ∈
        (get_lung_cancer_recommendations egfrExon20T790mRow emptyKB).2 ∧
      ("Sotorasib or Adagrasib", "FDA-approved for KRAS G12C mutation") ∈
        (get_lung_cancer_recommendations krasG12cRow emptyKB).2 :=
  ⟨((lung_special_triggers egfrExon20T790mRow emptyKB).1 rfl).1 rfl,
   ((lung_special_triggers egfrExon20T790mRow emptyKB).1 rfl).2 rfl,
   (lung_special_triggers krasG12cRow emptyKB).2 rfl rfl rfl rfl rfl⟩

/-- C10: the rounding the scorers implement is round-half-to-even: a
score ending in exactly .5 (t % 10 = 5 in tenths) rounds to the nearest
even integer; concretely, HER2 Enriched alone (2.5) gives level 2 and
Triple Negative with TP53 alone (3.5) gives level 4. -/
theorem round_ties_to_even :
    (∀ t : Int, 0 ≤ t → t % 10 = 5 →
      roundTenths t % 2 = 0 ∧ (roundTenths t = t / 10 ∨ roundTenths t = t / 10 + 1)) ∧
      determine_breast_therapy_level her2OnlyRow = 2 ∧
      determine_breast_therapy_level tnTp53Row = 4 := by
  refine ⟨fun t ht h5 => ?_, rfl, rfl⟩
  simp only [roundTenths, h5]
  split_ifs <;> omega

/-- C10 witness: the tie-break statement applied at score 2.5 (25
tenths). -/
theorem round_ties_to_even_witness :
    roundTenths 25 % 2 = 0 ∧ (roundTenths 25 = 25 / 10 ∨ roundTenths 25 = 25 / 10 + 1) :=
  round_ties_to_even.1 25 (by norm_num) (by norm_num)
